import Mathlib

/-!
Verification of the `/api/search` and `/api/transcribe` request-orchestration
logic of `src/server.py` (the AudioProcessor backend), via a shallow embedding.

External effects (the SerpAPI call, the site fetch, speech synthesis, the
upload content and the current date) are inputs to the embedded handlers;
the deterministic orchestration — classification, branching, fallback, text
assembly, HTML extraction, response shape, temp-file lifecycle — is
translated from the source.
-/

namespace Server

/-! ## String helpers (Python `in` on strings = substring containment) -/

/-- Holds when the list `n` is an initial segment of `h`. -/
def leads : List Char → List Char → Bool
  | [], _ => true
  | _ :: _, [] => false
  | a :: as, b :: bs => (a == b) && leads as bs

/-- Holds when the list `n` occurs contiguously inside `h`
(Python's `n in h` on strings). -/
def occursIn (n : List Char) : List Char → Bool
  | [] => n.isEmpty
  | c :: t => leads n (c :: t) || occursIn n t

/-- Models Python `needle in hay` substring containment. -/
def strContains (hay needle : String) : Bool :=
  occursIn needle.data hay.data

/-- Python `str.lower()`: character-wise case folding over the string's
character sequence. -/
def lowerStr (s : String) : String :=
  ⟨s.data.map Char.toLower⟩

/-- Python `str.strip()`: drop whitespace from both ends. -/
def trimStr (s : String) : String :=
  ⟨((s.data.dropWhile Char.isWhitespace).reverse.dropWhile Char.isWhitespace).reverse⟩

/-! ## Date model: `datetime.now() - timedelta(days=1)` with `strftime('%B %d, %Y')` -/

structure Date where
  year : Nat
  month : Nat
  day : Nat
deriving DecidableEq, Repr

def isLeapYear (y : Nat) : Bool :=
  y % 4 == 0 && (y % 100 != 0 || y % 400 == 0)

def daysInMonth (y m : Nat) : Nat :=
  if m == 2 then (if isLeapYear y then 29 else 28)
  else if m == 4 || m == 6 || m == 9 || m == 11 then 30
  else 31

/-- Calendar predecessor of a date, as `timedelta(days=1)` subtraction gives. -/
def prevDay (d : Date) : Date :=
  if d.day > 1 then ⟨d.year, d.month, d.day - 1⟩
  else if d.month > 1 then ⟨d.year, d.month - 1, daysInMonth d.year (d.month - 1)⟩
  else ⟨d.year - 1, 12, 31⟩

/-- Full month name, as `%B` renders it. -/
def monthName (m : Nat) : String :=
  if m == 1 then "January" else if m == 2 then "February"
  else if m == 3 then "March" else if m == 4 then "April"
  else if m == 5 then "May" else if m == 6 then "June"
  else if m == 7 then "July" else if m == 8 then "August"
  else if m == 9 then "September" else if m == 10 then "October"
  else if m == 11 then "November" else "December"

/-- Zero-padded two-digit day of month, as `%d` renders it. -/
def twoDigit (n : Nat) : String :=
  if n < 10 then "0" ++ toString n else toString n

/-- Renders a date as `strftime` with format `'%B %d, %Y'` does. -/
def formatLongDate (d : Date) : String :=
  monthName d.month ++ " " ++ twoDigit d.day ++ ", " ++ toString d.year

/-- The "yesterday" string the handler computes:
`(datetime.now() - timedelta(days=1)).strftime('%B %d, %Y')`. -/
def yesterdayStr (today : Date) : String :=
  formatLongDate (prevDay today)

/-! ## Query classifier (server.py lines 169-174) -/

def cricket_keywords : List String :=
  ["cricket", "sports", "match", "game", "wicket", "yesterday"]

/-- Lines 169-174: `query = request.query.lower()`;
`is_cricket_query = any(keyword in query for keyword in cricket_keywords)`. -/
def is_cricket_query (query : String) : Bool :=
  cricket_keywords.any (fun kw => strContains (lowerStr query) kw)

/-! ## Search-provider (SerpAPI) outcome model -/

/-- One entry of `results['organic_results']`; only the `snippet` key is read. -/
structure OrganicResult where
  snippet : Option String
deriving DecidableEq, Repr

/-- Outcome of `requests.get('https://serpapi.com/search', ...)` followed by
`response.json()`: either an exception somewhere in that pair, or a parsed
JSON dict in which the `organic_results` key is absent (`none`) or holds a
list. -/
inductive SerpOutcome where
  | fail
  | ok (organic : Option (List OrganicResult))
deriving DecidableEq, Repr

/-- server.py lines 197-200: iterate `results['organic_results'][:3]` and keep
each result's `snippet` when present. -/
def cricketInfo (orgs : List OrganicResult) : List String :=
  (orgs.take 3).filterMap (fun r => r.snippet)

def msgUnableFetchCricket : String :=
  "Unable to fetch cricket results. Please try again later."

def noCricketMsg (yesterday : String) : String :=
  "No cricket results found for " ++ yesterday ++ ". Please try searching for a different date."

def noDetailedMsg (yesterday : String) : String :=
  "No detailed cricket results found for " ++ yesterday ++ ". Please try searching for a different date."

def cricketHeader (yesterday : String) (info : List String) : String :=
  "Here are the cricket results from " ++ yesterday ++ ":\n\n" ++ String.intercalate "\n\n" info

/-- server.py lines 191-210: the direct sports-path `response_text`. -/
def sportsResponseText (yesterday : String) (serp : SerpOutcome) : String :=
  match serp with
  | .fail => msgUnableFetchCricket
  | .ok organic =>
    match organic with
    | some orgs =>
      if orgs.isEmpty then noCricketMsg yesterday
      else
        let info := cricketInfo orgs
        if info.isEmpty then noDetailedMsg yesterday
        else cricketHeader yesterday info
    | none => noCricketMsg yesterday

/-! ## HTML model and the extraction heuristic (server.py lines 216-257) -/

/-- A parsed HTML node: an element with a tag name, an optional `class`
attribute value, and children, or a text node. -/
inductive Html where
  | elem (tag : String) (cls : Option String) (children : List Html)
  | text (s : String)

mutual

/-- BeautifulSoup `get_text(strip=True)` with the default separator: each text
fragment is stripped of surrounding whitespace, then all are concatenated. -/
def getText : Html → String
  | .text s => trimStr s
  | .elem _ _ cs => getTextList cs

def getTextList : List Html → String
  | [] => ""
  | c :: cs => getText c ++ getTextList cs

end

mutual

/-- All proper descendants of a node, in document (pre-)order, as
BeautifulSoup's `find_all` traverses them. -/
def descendants : Html → List Html
  | .text _ => []
  | .elem _ _ cs => descList cs

def descList : List Html → List Html
  | [] => []
  | c :: cs => c :: descendants c ++ descList cs

end

/-- All elements `soup.find_all` can return on the whole document: the root
and its descendants. -/
def nodes (doc : Html) : List Html :=
  doc :: descendants doc

def tagIs (t : String) (h : Html) : Bool :=
  match h with
  | .elem tag _ _ => tag == t
  | .text _ => false

/-- The `class_` lambda of line 224:
`lambda x: x and ('service' in x.lower() or 'services' in x.lower())`. -/
def hasServiceClass (cls : Option String) : Bool :=
  match cls with
  | none => false
  | some x => strContains (lowerStr x) "service" || strContains (lowerStr x) "services"

/-- Element test of `soup.find_all(['section', 'div'], class_=...)`. -/
def isServiceSection (h : Html) : Bool :=
  match h with
  | .elem tag cls _ => (tag == "section" || tag == "div") && hasServiceClass cls
  | .text _ => false

/-- Element test of `section.find_all(['h2', 'h3', 'li', 'p'])`. -/
def isServiceItemTag (h : Html) : Bool :=
  match h with
  | .elem tag _ _ => tag == "h2" || tag == "h3" || tag == "li" || tag == "p"
  | .text _ => false

/-- Layer (a), lines 224-232: text of heading/list-item/paragraph descendants
of service-classed section/div containers, kept when non-empty and longer than
10 characters. -/
def servicesFromSections (doc : Html) : List String :=
  ((nodes doc).filter isServiceSection).flatMap (fun sec =>
    ((descendants sec).filter isServiceItemTag).filterMap (fun item =>
      let t := getText item
      if !t.isEmpty && t.length > 10 then some t else none))

/-- Line 236: `soup.find('main') or soup.find('article') or soup.find('body')`,
each returning the first element with the tag, in document order. -/
def mainContent (doc : Html) : Option Html :=
  ((nodes doc).find? (tagIs "main")).or
    (((nodes doc).find? (tagIs "article")).or ((nodes doc).find? (tagIs "body")))

/-- Layer (b), lines 235-242: paragraphs of the main content longer than 20
characters mentioning "service" or "offer" (case-insensitive). -/
def servicesFromMain (doc : Html) : List String :=
  match mainContent doc with
  | none => []
  | some mc =>
    ((descendants mc).filter (tagIs "p")).filterMap (fun p =>
      let t := getText p
      if !t.isEmpty && t.length > 20 &&
          (strContains (lowerStr t) "service" || strContains (lowerStr t) "offer")
        then some t else none)

/-- Layer (c), lines 245-253: the fixed default list. -/
def defaultServices : List String :=
  ["Web Development",
   "Mobile App Development",
   "Cloud Services",
   "AI and Machine Learning",
   "Digital Marketing",
   "IT Consulting"]

/-- The full layered extraction of lines 221-253: layer (a); if it yielded
nothing, layer (b); if still nothing, the fixed default list. -/
def extractServices (doc : Html) : List String :=
  let services := servicesFromSections doc
  let services := if services.isEmpty then servicesFromMain doc else services
  if services.isEmpty then defaultServices else services

/-- Lines 256-257: bullet the items and wrap them with the fixed intro and
closing sentence. -/
def formatSiteText (services : List String) : String :=
  "Sena provides the following services:\n" ++
    String.intercalate "\n" (services.map (fun s => "- " ++ s)) ++
    "\n\nFor more detailed information, please visit https://sena.services directly."

/-! ## Site fetch outcome and the non-sports branch (lines 211-285) -/

/-- Outcome of `requests.get('https://sena.services')`: an exception, or a
response with a status code and a parsed HTML body. (BeautifulSoup itself does
not raise on malformed input; any exception inside the branch is modelled by
`fail`.) -/
inductive FetchOutcome where
  | fail
  | ok (status : Nat) (body : Html)

def msgUnableAccessMoment : String :=
  "Unable to access sena.services at the moment. Please try again later or visit the website directly."

def msgUnableAccessPlain : String :=
  "Unable to access sena.services. Please try again later or visit the website directly."

/-- Lines 259-282: on a non-200 status the handler re-runs the sports search
with the same query template; usable snippets give the same header text as the
direct sports path, while no organic results or no snippets give the fixed
"at the moment" message. An exception in the fallback search itself reaches
the `except` of line 283. -/
def fallbackText (yesterday : String) (serp : SerpOutcome) : String :=
  match serp with
  | .fail => msgUnableAccessPlain
  | .ok organic =>
    match organic with
    | some orgs =>
      if orgs.isEmpty then msgUnableAccessMoment
      else
        let info := cricketInfo orgs
        if info.isEmpty then msgUnableAccessMoment
        else cricketHeader yesterday info
    | none => msgUnableAccessMoment

/-- Lines 213-285: the non-sports branch `response_text`. -/
def siteText (yesterday : String) (serp : SerpOutcome) (fetch : FetchOutcome) : String :=
  match fetch with
  | .fail => msgUnableAccessPlain
  | .ok status body =>
    if status == 200 then formatSiteText (extractServices body)
    else fallbackText yesterday serp

/-- Lines 169-285: the `response_text` the handler computes before speech
synthesis, as a function of the query, the current date, and the outcomes of
the external calls. -/
def response_text (query : String) (today : Date) (serp : SerpOutcome)
    (fetch : FetchOutcome) : String :=
  if is_cricket_query query then sportsResponseText (yesterdayStr today) serp
  else siteText (yesterdayStr today) serp fetch

/-! ## Speech synthesis and the response shape (lines 287-325) -/

/-- Outcome of the text-to-speech block. `createFail`: `speech.create` raises,
no temp file was created. `streamFail w`: `stream_to_file` raises, with `w`
recording whether the file came into existence before the failure. `readFail`:
opening or reading the streamed file (or the base64 step) raises after the
file exists. `ok`: the whole block succeeds and yields the base64 audio. -/
inductive TtsOutcome where
  | createFail
  | streamFail (fileWritten : Bool)
  | readFail
  | ok (audioB64 : String)
deriving DecidableEq, Repr

def msgAudioFail : String := "Failed to generate audio response"

/-- The JSON payload and status of a `/api/search` response. -/
structure Answer where
  status : Nat
  text : Option String
  audio : Option String
  error : Option String
deriving DecidableEq, Repr

/-- Lines 288-318: synthesize `response_text`, returning the response together
with whether a temporary audio file is left on disk afterwards. The success
path removes the file (line 306); the `except` of line 313 returns without
removing anything. -/
def synthesizeStep (t : String) (tts : TtsOutcome) : Answer × Bool :=
  match tts with
  | .ok a => ({status := 200, text := some t, audio := some a, error := none}, false)
  | .createFail =>
    ({status := 200, text := some t, audio := none, error := some msgAudioFail}, false)
  | .streamFail w =>
    ({status := 200, text := some t, audio := none, error := some msgAudioFail}, w)
  | .readFail =>
    ({status := 200, text := some t, audio := none, error := some msgAudioFail}, true)

/-- Lines 166-325: the `/api/search` handler. Returns the response and whether
a temporary file leaked. Every exit of the known branches goes through
`synthesizeStep`, so the outer `except` of line 320 is unreachable here. -/
def search (query : String) (today : Date) (serp : SerpOutcome)
    (fetch : FetchOutcome) (tts : TtsOutcome) : Answer × Bool :=
  synthesizeStep (response_text query today serp fetch) tts

/-! ## The `/api/transcribe` handler (lines 100-164) -/

/-- Outcome of the Whisper transcription call. -/
inductive TransOutcome where
  | fail
  | ok (text : String)
deriving DecidableEq, Repr

/-- The JSON payload and status of a `/api/transcribe` response. -/
structure TResponse where
  status : Nat
  text : Option String
  error : Option String
deriving DecidableEq, Repr

/-- Observable effects of one `/api/transcribe` request. -/
structure TranscribeEffects where
  providerCalled : Bool
  tempLeaked : Bool
deriving DecidableEq, Repr

/-- Lines 100-164: the `/api/transcribe` handler, over the uploaded bytes and
the provider outcome (local `open`/`write` are assumed not to raise; the
modelled save-stage failure is the `ValueError` on empty content, raised at
line 113 after `open(temp_path, 'wb')` has already created the file). On that
route the `except` of line 123 returns without any cleanup — the `finally` of
line 148 only wraps the transcription `try` — so the zero-byte temp file
stays on disk. On both transcription routes the `finally` removes the file. -/
def transcribe_audio (content : List UInt8) (trans : TransOutcome) :
    TResponse × TranscribeEffects :=
  if content.isEmpty then
    ({status := 500, text := none, error := some "Error saving file: Empty file received"},
     {providerCalled := false, tempLeaked := true})
  else
    match trans with
    | .fail =>
      ({status := 500, text := none, error := some "Error during transcription"},
       {providerCalled := true, tempLeaked := false})
    | .ok t =>
      ({status := 200, text := some t, error := none},
       {providerCalled := true, tempLeaked := false})

/-! Concrete fixtures and a spec-worded comparator used by the theorems below. -/

/-- Modelled from the spec: the snippet selection as claim C3 words it —
"at most the first 3 snippet-bearing results' snippets", i.e. skip the
results lacking a snippet first, then take the first three of what is left.
This is a comparator for the code's `cricketInfo`, which instead takes the
first three results and then drops the snippet-less ones. -/
def specSnippetSelection (orgs : List OrganicResult) : List String :=
  (orgs.filterMap (fun r => r.snippet)).take 3

/-- Provider response whose first three organic results lack snippets while a
later one has one: the point where the two snippet selections disagree. -/
def orgsSkip : List OrganicResult :=
  [⟨none⟩, ⟨none⟩, ⟨none⟩, ⟨some "India won by 5 wickets"⟩]

/-- Provider response with one organic result and no usable snippet. -/
def serpNoSnips : SerpOutcome := SerpOutcome.ok (some [⟨none⟩])

/-- A small page with one service-classed section holding two list items,
one longer than 10 characters and one shorter. -/
def docServices : Html :=
  Html.elem "html" none
    [Html.elem "body" none
      [Html.elem "section" (some "Our-Services")
        [Html.elem "ul" none
          [Html.elem "li" none [Html.text "  Web Design Excellence "],
           Html.elem "li" none [Html.text "short"]]]]]

/-! Helper lemmas. -/

theorem leads_iff (n : List Char) : ∀ h, leads n h = true ↔ ∃ s, h = n ++ s := by
  induction n with
  | nil => intro h; simp [leads]
  | cons a as ih =>
    intro h
    cases h with
    | nil => simp [leads]
    | cons b bs =>
      simp only [leads, Bool.and_eq_true, beq_iff_eq, ih, List.cons_append, List.cons.injEq]
      constructor
      · rintro ⟨rfl, s, rfl⟩; exact ⟨s, rfl, rfl⟩
      · rintro ⟨s, rfl, rfl⟩; exact ⟨rfl, s, rfl⟩

theorem occursIn_iff (n : List Char) : ∀ h, occursIn n h = true ↔ ∃ p s, h = p ++ (n ++ s) := by
  intro h
  induction h with
  | nil =>
    simp only [occursIn, List.isEmpty_iff]
    constructor
    · rintro rfl; exact ⟨[], [], rfl⟩
    · rintro ⟨p, s, hps⟩
      rcases List.append_eq_nil.mp hps.symm with ⟨rfl, h2⟩
      rcases List.append_eq_nil.mp h2 with ⟨rfl, rfl⟩
      rfl
  | cons c t ih =>
    simp only [occursIn, Bool.or_eq_true, leads_iff, ih]
    constructor
    · rintro (⟨s, hs⟩ | ⟨p, s, hps⟩)
      · exact ⟨[], s, by simp [hs]⟩
      · exact ⟨c :: p, s, by simp [hps]⟩
    · rintro ⟨p, s, hps⟩
      cases p with
      | nil => exact Or.inl ⟨s, by simpa using hps⟩
      | cons d ds =>
        rcases List.cons.injEq .. ▸ hps with ⟨rfl, ht⟩
        exact Or.inr ⟨ds, s, ht⟩

/-- The fallback branch's no-snippet message and the direct sports path's
no-detailed-results message differ for every date string: their first
characters already disagree. -/
theorem unable_ne_noDetailed (y : String) : msgUnableAccessMoment ≠ noDetailedMsg y := by
  have h1 : msgUnableAccessMoment.data.head? = some 'U' := rfl
  have h2 : (noDetailedMsg y).data.head? = some 'N' := by
    show (("No detailed cricket results found for " ++ y ++
      ". Please try searching for a different date.").data).head? = some 'N'
    rw [String.data_append, String.data_append, List.head?_append, List.head?_append]
    rfl
  intro h
  rw [h, h2] at h1
  exact absurd h1 (by decide)

/-! Claim theorems. -/

/-- C1 (code bug evaluation): the temporary on-disk asset is NOT always
deleted before the response is returned. At the failing inputs: an empty
upload to `/api/transcribe` leaves the zero-byte temp file created by
`open(temp_path, 'wb')` on disk (the save-failure `except` of line 123
returns before the cleanup `finally` of line 148 is ever entered), and a
`/api/search` request whose synthesized audio file cannot be read back
leaves the streamed file on disk (the `except` of line 313 performs no
cleanup). The success and transcription-failure routes do delete the file. -/
theorem temp_file_leaks :
    (transcribe_audio [] (TransOutcome.ok "hello")).2.tempLeaked = true ∧
    (search "what is the weather" ⟨2025, 1, 2⟩ SerpOutcome.fail FetchOutcome.fail
        TtsOutcome.readFail).2 = true ∧
    (transcribe_audio [37] (TransOutcome.ok "hello")).2.tempLeaked = false ∧
    (search "what is the weather" ⟨2025, 1, 2⟩ SerpOutcome.fail FetchOutcome.fail
        (TtsOutcome.ok "AAAA")).2 = false :=
  ⟨rfl, rfl, rfl, rfl⟩

/-- C2 (counterexample): with the site fetch returning 404 and a provider
response holding one organic result without a snippet, the non-sports path
answers with the unable-to-access-site message, while the direct sports path
with the same date and provider response answers with the
no-detailed-results message — the fallback is not verbatim the sports
algorithm for every provider response. -/
theorem fallback_not_verbatim_cex :
    is_cricket_query "what is the weather" = false ∧
    response_text "what is the weather" ⟨2025, 1, 2⟩ serpNoSnips
        (FetchOutcome.ok 404 (Html.text "")) ≠
      sportsResponseText (yesterdayStr ⟨2025, 1, 2⟩) serpNoSnips := by
  constructor
  · decide
  · show msgUnableAccessMoment ≠ noDetailedMsg "January 01, 2025"
    decide

/-- C2 (amended): for a non-sports query whose site fetch returns a non-200
status, the fallback produces exactly the direct sports-path text whenever
the provider response yields at least one usable snippet among its first
three organic results; the no-snippet and provider-error cases produce the
fixed unable-to-access messages instead. -/
theorem fallback_matches_direct_when_snippets (q : String) (today : Date)
    (orgs : List OrganicResult) (st : Nat) (body : Html)
    (hq : is_cricket_query q = false) (hst : st ≠ 200)
    (hinfo : cricketInfo orgs ≠ []) :
    response_text q today (SerpOutcome.ok (some orgs)) (FetchOutcome.ok st body) =
      sportsResponseText (yesterdayStr today) (SerpOutcome.ok (some orgs)) := by
  have horgs : orgs ≠ [] := by rintro rfl; exact hinfo rfl
  simp [response_text, hq, siteText, hst, fallbackText, sportsResponseText,
    List.isEmpty_iff, horgs, hinfo]

theorem fallback_matches_direct_witness :
    response_text "hello there" ⟨2025, 1, 2⟩ (SerpOutcome.ok (some [⟨some "a"⟩]))
        (FetchOutcome.ok 503 (Html.text "")) =
      sportsResponseText (yesterdayStr ⟨2025, 1, 2⟩) (SerpOutcome.ok (some [⟨some "a"⟩])) :=
  fallback_matches_direct_when_snippets "hello there" ⟨2025, 1, 2⟩ [⟨some "a"⟩] 503
    (Html.text "") (by decide) (by decide) (by decide)

/-- C3 (counterexample): with four organic results whose first three lack
snippets and whose fourth has one, the claim's selection ("the first 3
snippet-bearing results") is that fourth snippet, and so the claim demands
the header text; the code instead considers only the first three results,
finds no snippet, and emits the no-detailed-results message. -/
theorem sports_take_then_filter_cex :
    specSnippetSelection orgsSkip = ["India won by 5 wickets"] ∧
    sportsResponseText (yesterdayStr ⟨2025, 1, 2⟩) (SerpOutcome.ok (some orgsSkip)) =
      noDetailedMsg "January 01, 2025" ∧
    sportsResponseText (yesterdayStr ⟨2025, 1, 2⟩) (SerpOutcome.ok (some orgsSkip)) ≠
      cricketHeader "January 01, 2025" (specSnippetSelection orgsSkip) := by
  refine ⟨rfl, rfl, ?_⟩
  decide

/-- C3 (amended): on the sports path the produced text is the header
"Here are the cricket results from <date>:" — with <date> the current date
minus one day rendered as a long date — followed by the snippets of the
snippet-bearing results among the FIRST THREE organic results (at most 3),
joined with blank-line separators; with no organic results the text is the
fixed no-cricket-results message, and with organic results none of whose
first three bear a snippet it is the distinct fixed no-detailed-results
message. -/
theorem sports_text_cases (today : Date) (orgs : List OrganicResult) :
    (orgs ≠ [] → cricketInfo orgs ≠ [] →
      sportsResponseText (yesterdayStr today) (SerpOutcome.ok (some orgs)) =
        "Here are the cricket results from " ++ formatLongDate (prevDay today) ++
          ":\n\n" ++ String.intercalate "\n\n" (cricketInfo orgs) ∧
      (cricketInfo orgs).length ≤ 3 ∧
      cricketInfo orgs = (orgs.take 3).filterMap (fun r => r.snippet)) ∧
    (orgs = [] →
      sportsResponseText (yesterdayStr today) (SerpOutcome.ok (some orgs)) =
        noCricketMsg (yesterdayStr today)) ∧
    (orgs ≠ [] → cricketInfo orgs = [] →
      sportsResponseText (yesterdayStr today) (SerpOutcome.ok (some orgs)) =
        noDetailedMsg (yesterdayStr today)) := by
  refine ⟨fun h1 h2 => ⟨?_, ?_, rfl⟩, fun h => ?_, fun h1 h2 => ?_⟩
  · simp [sportsResponseText, List.isEmpty_iff, h1, h2, cricketHeader, yesterdayStr]
  · calc (cricketInfo orgs).length ≤ (orgs.take 3).length := List.length_filterMap_le _ _
      _ ≤ 3 := by simp [List.length_take]
  · subst h; rfl
  · simp [sportsResponseText, List.isEmpty_iff, h1, h2]

theorem sports_text_cases_witness :
    sportsResponseText (yesterdayStr ⟨2025, 1, 2⟩) (SerpOutcome.ok (some [⟨some "a"⟩])) =
      "Here are the cricket results from " ++ formatLongDate (prevDay ⟨2025, 1, 2⟩) ++
        ":\n\n" ++ String.intercalate "\n\n" (cricketInfo [⟨some "a"⟩]) ∧
    (cricketInfo [⟨some "a"⟩]).length ≤ 3 ∧
    cricketInfo [⟨some "a"⟩] =
      ([(⟨some "a"⟩ : OrganicResult)].take 3).filterMap (fun r => r.snippet) :=
  (sports_text_cases ⟨2025, 1, 2⟩ [⟨some "a"⟩]).1 (by decide) (by decide)

/-- C4: an exception from the sports provider call (direct or in the
fallback), or any exception inside the site fetch/parse branch, is absorbed:
the response status is the HTTP success 200 for every synthesis outcome, and
the text is one of the two fixed substitute messages. -/
theorem absorbed_branch_errors (q : String) (today : Date) (serp : SerpOutcome)
    (fetch : FetchOutcome) (tts : TtsOutcome)
    (h : (is_cricket_query q = true ∧ serp = SerpOutcome.fail) ∨
         (is_cricket_query q = false ∧ fetch = FetchOutcome.fail) ∨
         (is_cricket_query q = false ∧ serp = SerpOutcome.fail ∧
           ∃ st body, fetch = FetchOutcome.ok st body ∧ st ≠ 200)) :
    (search q today serp fetch tts).1.status = 200 ∧
      ((search q today serp fetch tts).1.text = some msgUnableFetchCricket ∨
       (search q today serp fetch tts).1.text = some msgUnableAccessPlain) := by
  have hsyn : ∀ t, (synthesizeStep t tts).1.status = 200 ∧
      (synthesizeStep t tts).1.text = some t := by
    intro t; cases tts <;> simp [synthesizeStep]
  rcases h with ⟨hq, rfl⟩ | ⟨hq, rfl⟩ | ⟨hq, rfl, st, body, rfl, hst⟩
  · refine ⟨(hsyn _).1, Or.inl ?_⟩
    rw [search, (hsyn _).2, response_text]
    simp [hq, sportsResponseText]
  · refine ⟨(hsyn _).1, Or.inr ?_⟩
    rw [search, (hsyn _).2, response_text]
    simp [hq, siteText]
  · refine ⟨(hsyn _).1, Or.inr ?_⟩
    rw [search, (hsyn _).2, response_text]
    simp [hq, siteText, hst, fallbackText]

theorem absorbed_branch_errors_witness :
    (search "cricket score" ⟨2025, 1, 2⟩ SerpOutcome.fail FetchOutcome.fail
        TtsOutcome.createFail).1.status = 200 ∧
      ((search "cricket score" ⟨2025, 1, 2⟩ SerpOutcome.fail FetchOutcome.fail
          TtsOutcome.createFail).1.text = some msgUnableFetchCricket ∨
       (search "cricket score" ⟨2025, 1, 2⟩ SerpOutcome.fail FetchOutcome.fail
          TtsOutcome.createFail).1.text = some msgUnableAccessPlain) :=
  absorbed_branch_errors "cricket score" ⟨2025, 1, 2⟩ SerpOutcome.fail FetchOutcome.fail
    TtsOutcome.createFail (Or.inl ⟨by decide, rfl⟩)

/-- C5: the classifier selects the sports path exactly when some keyword of
the fixed set occurs as a contiguous substring of the lowercased query. -/
theorem classifier_substring_iff (q : String) :
    is_cricket_query q = true ↔
      ∃ kw ∈ cricket_keywords, ∃ p s, (lowerStr q).data = p ++ (kw.data ++ s) := by
  simp [is_cricket_query, strContains, List.any_eq_true, occursIn_iff]

/-- C6: extraction is layered — the service-classed containers' collected
texts when any exist, otherwise the main-content paragraph texts when any
exist, otherwise exactly the fixed default list of six service names. -/
theorem layered_extraction (doc : Html) :
    (servicesFromSections doc ≠ [] → extractServices doc = servicesFromSections doc) ∧
    (servicesFromSections doc = [] → servicesFromMain doc ≠ [] →
        extractServices doc = servicesFromMain doc) ∧
    (servicesFromSections doc = [] → servicesFromMain doc = [] →
        extractServices doc = defaultServices) ∧
    defaultServices.length = 6 := by
  refine ⟨fun h => ?_, fun h1 h2 => ?_, fun h1 h2 => ?_, rfl⟩
  · simp [extractServices, List.isEmpty_iff, h]
  · simp [extractServices, List.isEmpty_iff, h1, h2]
  · simp [extractServices, List.isEmpty_iff, h1, h2]

theorem layered_extraction_witness :
    extractServices docServices = servicesFromSections docServices :=
  (layered_extraction docServices).1 (by decide)

/-- C7: whatever the retrieval produced, the response always carries its text
and HTTP status 200; when synthesis (or the file I/O after it) fails the
audio field is absent and the error field is the fixed
failed-to-generate-audio message, and the audio field is present exactly
when synthesis succeeded, carrying the synthesized audio. -/
theorem synthesis_failure_partial_success (q : String) (today : Date)
    (serp : SerpOutcome) (fetch : FetchOutcome) (tts : TtsOutcome) :
    (search q today serp fetch tts).1.status = 200 ∧
    (search q today serp fetch tts).1.text = some (response_text q today serp fetch) ∧
    (match tts with
     | TtsOutcome.ok a =>
        (search q today serp fetch tts).1.audio = some a ∧
        (search q today serp fetch tts).1.error = none
     | _ =>
        (search q today serp fetch tts).1.audio = none ∧
        (search q today serp fetch tts).1.error = some msgAudioFail) := by
  cases tts <;> simp [search, synthesizeStep]

/-- C8: on the non-sports path with a non-200 fetch and a provider response
whose first three organic results bear no snippet, the answer is the fixed
unable-to-access-site message, while the direct sports path with the same
date and provider response yields the no-detailed-results message — and
those two fixed strings differ for every date. -/
theorem divergent_no_snippet_messages (q : String) (today : Date)
    (orgs : List OrganicResult) (st : Nat) (body : Html)
    (hq : is_cricket_query q = false) (hst : st ≠ 200)
    (horgs : orgs ≠ []) (hinfo : cricketInfo orgs = []) :
    response_text q today (SerpOutcome.ok (some orgs)) (FetchOutcome.ok st body) =
      msgUnableAccessMoment ∧
    sportsResponseText (yesterdayStr today) (SerpOutcome.ok (some orgs)) =
      noDetailedMsg (yesterdayStr today) ∧
    msgUnableAccessMoment ≠ noDetailedMsg (yesterdayStr today) := by
  refine ⟨?_, ?_, unable_ne_noDetailed _⟩
  · simp [response_text, hq, siteText, hst, fallbackText, List.isEmpty_iff, horgs, hinfo]
  · simp [sportsResponseText, List.isEmpty_iff, horgs, hinfo]

theorem divergent_no_snippet_messages_witness :
    response_text "hello there" ⟨2025, 1, 2⟩ (SerpOutcome.ok (some [⟨none⟩]))
        (FetchOutcome.ok 503 (Html.text "")) = msgUnableAccessMoment ∧
    sportsResponseText (yesterdayStr ⟨2025, 1, 2⟩) (SerpOutcome.ok (some [⟨none⟩])) =
      noDetailedMsg (yesterdayStr ⟨2025, 1, 2⟩) ∧
    msgUnableAccessMoment ≠ noDetailedMsg (yesterdayStr ⟨2025, 1, 2⟩) :=
  divergent_no_snippet_messages "hello there" ⟨2025, 1, 2⟩ [⟨none⟩] 503 (Html.text "")
    (by decide) (by decide) (by decide) (by decide)

/-- C9: an empty upload to `/api/transcribe` yields the failure status 500
with the descriptive save-error message, and the transcription provider is
not called. -/
theorem empty_upload_rejected (content : List UInt8) (trans : TransOutcome)
    (h : content = []) :
    (transcribe_audio content trans).1.status = 500 ∧
    (transcribe_audio content trans).1.error =
      some "Error saving file: Empty file received" ∧
    (transcribe_audio content trans).2.providerCalled = false := by
  subst h
  simp [transcribe_audio]

theorem empty_upload_rejected_witness :
    (transcribe_audio [] (TransOutcome.ok "hi")).1.status = 500 ∧
    (transcribe_audio [] (TransOutcome.ok "hi")).1.error =
      some "Error saving file: Empty file received" ∧
    (transcribe_audio [] (TransOutcome.ok "hi")).2.providerCalled = false :=
  empty_upload_rejected [] (TransOutcome.ok "hi") rfl

/-- C10: two sports-classified queries produce identical responses (and
identical temp-file effects) under the same current date, provider response,
fetch outcome, and synthesis outcome: on the sports path nothing of the
query beyond its classification reaches the provider request or the answer. -/
theorem sports_query_noninterference (q1 q2 : String) (today : Date)
    (serp : SerpOutcome) (fetch : FetchOutcome) (tts : TtsOutcome)
    (h1 : is_cricket_query q1 = true) (h2 : is_cricket_query q2 = true) :
    search q1 today serp fetch tts = search q2 today serp fetch tts := by
  simp [search, response_text, h1, h2]

theorem sports_query_noninterference_witness :
    search "cricket" ⟨2025, 1, 2⟩ (SerpOutcome.ok (some [⟨some "a"⟩])) FetchOutcome.fail
        (TtsOutcome.ok "AAAA") =
      search "how was the GAME yesterday" ⟨2025, 1, 2⟩
        (SerpOutcome.ok (some [⟨some "a"⟩])) FetchOutcome.fail (TtsOutcome.ok "AAAA") :=
  sports_query_noninterference "cricket" "how was the GAME yesterday" ⟨2025, 1, 2⟩
    (SerpOutcome.ok (some [⟨some "a"⟩])) FetchOutcome.fail (TtsOutcome.ok "AAAA")
    (by decide) (by decide)

end Server
